import Mathlib

/-!
# Verification of the NCBI GenBank retriever pipeline

Shallow embedding of `s28192_2025-2.py`: an `NCBIRetriever` class with
`search_taxid` and `fetch_records`, the functions `save_to_csv` and
`plot_lengths`, and the `main` pipeline.

Remote services (Entrez taxonomy lookup, esearch, efetch) are modelled by an
environment `Env` of responses; a raised exception from a service call is an
`Except.error`, which the Python `try/except` blocks catch.  Observable side
effects (remote requests, file writes) are collected in an explicit trace of
`Effect` values, so that claims about "no network access", "no output file
written" and the parameters of the batch request are statable.
-/

/-- A parsed GenBank record as used by the script: `rec.id`, `rec.seq`
(whose `len` is the sequence length) and `rec.description`. -/
structure SeqRecord where
  id : String
  seq : List Char
  description : String
deriving Repr, DecidableEq

/-- One row of the pandas DataFrame built by `save_to_csv`:
`(rec.id, length, rec.description)` under the column names
`Accession`, `Length`, `Description`. -/
structure Row where
  accession : String
  length : Nat
  description : String
deriving Repr, DecidableEq

/-- Observable side effects of the pipeline. -/
inductive Effect where
  /-- `Entrez.efetch(db="taxonomy", id=taxid, retmode="xml")` -/
  | efetchTaxonomy (taxid : String)
  /-- `Entrez.esearch(db="nucleotide", term=search_term, usehistory="y")` -/
  | esearch (term : String)
  /-- `Entrez.efetch(db="nucleotide", ..., retstart=start, retmax=batch_size, ...)` -/
  | efetchBatch (start retmax : Int)
  /-- `df.to_csv(filename, index=False)`: the written lines. -/
  | writeCsv (filename : String) (lines : List String)
  /-- `plt.savefig(output_file)` with the plotted x/y series. -/
  | savePlot (filename : String) (xs : List String) (ys : List Nat)
deriving Repr, DecidableEq

/-- An effect contacting the remote NCBI services. -/
def Effect.isNetwork : Effect → Bool
  | .efetchTaxonomy _ => true
  | .esearch _ => true
  | .efetchBatch _ _ => true
  | _ => false

/-- An effect writing an output file to disk. -/
def Effect.isFileWrite : Effect → Bool
  | .writeCsv _ _ => true
  | .savePlot _ _ _ => true
  | _ => false

/-- The batch fetch request. -/
def Effect.isFetchBatch : Effect → Bool
  | .efetchBatch _ _ => true
  | _ => false

/-- Responses of the remote services for one run: a raised exception is an
`Except.error` (carrying the message text). The match count reported by
esearch is a count of records, hence a natural number. -/
structure Env where
  /-- taxonomy lookup: taxid ↦ scientific name of the first record -/
  taxonomy : String → Except String String
  /-- esearch on "nucleotide": term ↦ (Count, WebEnv, QueryKey) -/
  esearchResp : String → Except String (Nat × String × String)
  /-- efetch on "nucleotide": (retstart, retmax) ↦ parsed records -/
  efetchResp : Int → Int → Except String (List SeqRecord)

/-- The fields of an `NCBIRetriever` instance.  `webenv`, `query_key` and
`count` are only set by a successful `search_taxid` (the Python code checks
them with `hasattr`), hence `Option`. -/
structure Retriever where
  email : String
  api_key : String
  webenv : Option String := none
  query_key : Option String := none
  count : Option Nat := none
deriving Repr, DecidableEq

/-- `NCBIRetriever.search_taxid`: taxonomy lookup, then esearch with the term
`txid<taxid>[Organism]`.  Any exception is caught and turned into `None`;
`Count == 0` also yields `None` without storing session state; otherwise
`webenv`, `query_key` and `count` are stored on the instance and the count is
returned.  Result: (updated instance, returned value, effect trace). -/
def search_taxid (env : Env) (r : Retriever) (taxid : String) :
    Retriever × Option Nat × List Effect :=
  match env.taxonomy taxid with
  | .error _ => (r, none, [.efetchTaxonomy taxid])
  | .ok _organism_name =>
    let search_term := "txid" ++ taxid ++ "[Organism]"
    match env.esearchResp search_term with
    | .error _ => (r, none, [.efetchTaxonomy taxid, .esearch search_term])
    | .ok (count, webenv, query_key) =>
      if count = 0 then
        (r, none, [.efetchTaxonomy taxid, .esearch search_term])
      else
        ({ r with webenv := some webenv, query_key := some query_key,
                  count := some count },
         some count,
         [.efetchTaxonomy taxid, .esearch search_term])

/-- `NCBIRetriever.fetch_records`: if `webenv` or `query_key` was never set,
return `[]` without any service call; otherwise issue one efetch with
`retmax = min(max_records, 500)`, and catch any exception as `[]`.
Result: (parsed records, effect trace). -/
def fetch_records (env : Env) (r : Retriever) (start : Int := 0)
    (max_records : Int := 10) : List SeqRecord × List Effect :=
  if r.webenv.isNone || r.query_key.isNone then
    ([], [])
  else
    let batch_size := min max_records 500
    match env.efetchResp start batch_size with
    | .error _ => ([], [.efetchBatch start batch_size])
    | .ok recs => (recs, [.efetchBatch start batch_size])

/-- The loop of `save_to_csv`: for each record, keep it when
`min_len <= len(rec.seq) <= max_len`, appending `(rec.id, length,
rec.description)` in input order. -/
def save_to_csv_loop (records : List SeqRecord) (min_len max_len : Int) :
    List Row :=
  match records with
  | [] => []
  | rec :: rest =>
    let length := rec.seq.length
    if min_len ≤ (length : Int) ∧ (length : Int) ≤ max_len then
      ⟨rec.id, length, rec.description⟩ :: save_to_csv_loop rest min_len max_len
    else
      save_to_csv_loop rest min_len max_len

/-- The CSV header row written by `df.to_csv` for the DataFrame with columns
`["Accession", "Length", "Description"]` and `index=False`. -/
def csvHeader : String := "Accession,Length,Description"

/-- One CSV data row. -/
def rowToCsv (row : Row) : String :=
  row.accession ++ "," ++ toString row.length ++ "," ++ row.description

/-- The lines written by `df.to_csv(filename, index=False)`: header row, then
one row per DataFrame row, in order. -/
def dfToCsvLines (df : List Row) : List String :=
  csvHeader :: df.map rowToCsv

/-- `save_to_csv(records, filename, min_len, max_len)`: build the filtered
table, write it to `filename` as CSV, and return the DataFrame.
Result: (returned DataFrame, effect trace). -/
def save_to_csv (records : List SeqRecord) (filename : String)
    (min_len max_len : Int) : List Row × List Effect :=
  let df := save_to_csv_loop records min_len max_len
  (df, [.writeCsv filename (dfToCsvLines df)])

/-- `df.sort_values(by="Length", ascending=False)`: a new DataFrame sorted by
`Length` descending; the input DataFrame is not modified
(`inplace` defaults to `False`). -/
def sort_values_length_desc (df : List Row) : List Row :=
  df.mergeSort (fun a b => b.length ≤ a.length)

/-- `plot_lengths(df, output_file)`: rebind the local `df` to a sorted copy,
plot `df["Accession"]` against `df["Length"]`, save the figure.  The first
component is the caller's DataFrame after the call (unchanged, since
`sort_values` returns a copy and only the local name is rebound). -/
def plot_lengths (df : List Row) (output_file : String) :
    List Row × List Effect :=
  let sorted := sort_values_length_desc df
  (df, [.savePlot output_file (sorted.map (·.accession))
          (sorted.map (·.length))])

/-- The five interactive inputs read by `main`. -/
structure Inputs where
  email : String
  api_key : String
  taxid : String
  min_len : Int
  max_len : Int

/-- `main`: build the retriever, search, and — unless the returned count is
falsy (`None` or `0`) — fetch one batch of at most 50 records, write the
filtered CSV and the plot.  Result: the effect trace of the run. -/
def main_pipeline (env : Env) (inp : Inputs) : List Effect :=
  let retriever : Retriever := { email := inp.email, api_key := inp.api_key }
  let sr := search_taxid env retriever inp.taxid
  match sr.2.1 with
  | none => sr.2.2
  | some count =>
    if count = 0 then
      sr.2.2
    else
      let fr := fetch_records env sr.1 0 50
      let csv_file := "taxid_" ++ inp.taxid ++ "_filtered.csv"
      let sc := save_to_csv fr.1 csv_file inp.min_len inp.max_len
      let plot_file := "taxid_" ++ inp.taxid ++ "_plot.png"
      let pl := plot_lengths sc.1 plot_file
      sr.2.2 ++ fr.2 ++ sc.2 ++ pl.2

/-- Specification-side description of the filter-and-tabulate step: keep
exactly the records whose length lies in `[lo, hi]`, in order, projected to
`(accession, length, description)`. -/
def filterTabulateSpec (records : List SeqRecord) (lo hi : Int) : List Row :=
  (records.filter (fun rec =>
      decide (lo ≤ (rec.seq.length : Int) ∧ (rec.seq.length : Int) ≤ hi))).map
    (fun rec => ⟨rec.id, rec.seq.length, rec.description⟩)

/-- The length filter applied at the level of table rows. -/
def rowFilter (df : List Row) (lo hi : Int) : List Row :=
  df.filter (fun row => decide (lo ≤ (row.length : Int) ∧ (row.length : Int) ≤ hi))

/-- The loop of `save_to_csv` is filter-then-project. -/
theorem save_to_csv_loop_eq_filter_map (records : List SeqRecord) (lo hi : Int) :
    save_to_csv_loop records lo hi = filterTabulateSpec records lo hi := by
  induction records with
  | nil => rfl
  | cons rec rest ih =>
    by_cases h : lo ≤ (rec.seq.length : Int) ∧ (rec.seq.length : Int) ≤ hi
    · simp only [save_to_csv_loop, filterTabulateSpec, List.filter_cons,
        h, if_pos, decide_eq_true_eq, ite_true, List.map_cons] at *
      simp [h, ih, filterTabulateSpec]
    · simp only [save_to_csv_loop, filterTabulateSpec, List.filter_cons] at *
      simp [h, ih, filterTabulateSpec]

/-- C1: For every input sequence of records and bounds `lo ≤ · ≤ hi`
(inclusive on both bounds), the filter-and-tabulate step produces exactly
the in-range records, each projected to `(accession, length, description)`,
in the same relative order as the input: it equals filter-then-project. -/
theorem C1_filter_tabulate (records : List SeqRecord) (lo hi : Int) :
    save_to_csv_loop records lo hi = filterTabulateSpec records lo hi :=
  save_to_csv_loop_eq_filter_map records lo hi

/-- C2 counterexample: as implemented, the filter-and-tabulate step
(`save_to_csv`) is not free of disk access: already on the empty record list
its effect trace contains a file write (`df.to_csv`). -/
theorem C2_counterexample :
    ((save_to_csv [] "out.csv" 0 10).2.any Effect.isFileWrite) = true := rfl

/-- C2 (amended): the filtering and projection are a pure function of the
in-memory input (the returned table depends only on records and bounds), and
the step performs no network access; but it additionally writes the resulting
table to disk as exactly one CSV file. -/
theorem C2_pure_except_csv_write (records : List SeqRecord) (filename : String)
    (lo hi : Int) :
    (save_to_csv records filename lo hi).1 = save_to_csv_loop records lo hi ∧
    (∀ e ∈ (save_to_csv records filename lo hi).2, e.isNetwork = false) ∧
    (save_to_csv records filename lo hi).2 =
      [Effect.writeCsv filename (dfToCsvLines (save_to_csv_loop records lo hi))] := by
  refine ⟨rfl, ?_, rfl⟩
  intro e he
  simp [save_to_csv] at he
  subst he
  rfl

/-- C3: whenever the remote search reports a total match count of 0,
`search_taxid` returns `None` (no session), and the whole pipeline issues no
batch fetch request and writes no output file (no CSV, no plot). -/
theorem C3_zero_count (env : Env) (inp : Inputs) (name w q : String)
    (h1 : env.taxonomy inp.taxid = .ok name)
    (h2 : env.esearchResp ("txid" ++ inp.taxid ++ "[Organism]") = .ok (0, w, q)) :
    (search_taxid env { email := inp.email, api_key := inp.api_key }
        inp.taxid).2.1 = none ∧
    ∀ e ∈ main_pipeline env inp, e.isFetchBatch = false ∧ e.isFileWrite = false := by
  have hs : search_taxid env { email := inp.email, api_key := inp.api_key }
      inp.taxid =
      ({ email := inp.email, api_key := inp.api_key }, none,
        [.efetchTaxonomy inp.taxid,
         .esearch ("txid" ++ inp.taxid ++ "[Organism]")]) := by
    simp [search_taxid, h1, h2]
  refine ⟨by rw [hs], ?_⟩
  intro e he
  rw [main_pipeline, hs] at he
  simp at he
  rcases he with rfl | rfl <;> exact ⟨rfl, rfl⟩

/-- A run in which the search reports zero matches. -/
def envZero : Env where
  taxonomy := fun _ => .ok "Homo sapiens"
  esearchResp := fun _ => .ok (0, "W1", "K1")
  efetchResp := fun _ _ => .ok []

theorem C3_zero_count_witness :
    (search_taxid envZero { email := "e", api_key := "k" } "9606").2.1 = none ∧
    ∀ e ∈ main_pipeline envZero ⟨"e", "k", "9606", 0, 100⟩,
      e.isFetchBatch = false ∧ e.isFileWrite = false :=
  C3_zero_count envZero ⟨"e", "k", "9606", 0, 100⟩ "Homo sapiens" "W1" "K1"
    rfl rfl

/-- C4: when no search session exists (`webenv` or `query_key` never stored),
`fetch_records` returns the empty sequence with no service call, for any
start offset and requested max; being a total function, it raises nothing. -/
theorem C4_fetch_no_session (env : Env) (r : Retriever)
    (start max_records : Int) (h : r.webenv = none ∨ r.query_key = none) :
    fetch_records env r start max_records = ([], []) := by
  rcases h with h | h <;> simp [fetch_records, h]

theorem C4_fetch_no_session_witness :
    fetch_records envZero { email := "e", api_key := "k" } 7 9999 = ([], []) :=
  C4_fetch_no_session envZero { email := "e", api_key := "k" } 7 9999
    (Or.inl rfl)

/-- C5: with a session present, `fetch_records` issues exactly one batch
request, whose `retmax` is `min(max_records, 500)`: at most 500, unchanged
when the request is at most 500, and exactly 500 when the request exceeds
500; there is no second request to cover the remainder. -/
theorem C5_batch_clamped (env : Env) (r : Retriever) (start max_records : Int)
    (w q : String) (hw : r.webenv = some w) (hq : r.query_key = some q) :
    (fetch_records env r start max_records).2 =
      [Effect.efetchBatch start (min max_records 500)] ∧
    min max_records 500 ≤ 500 ∧
    (max_records ≤ 500 → min max_records 500 = max_records) ∧
    (500 < max_records → min max_records 500 = 500) := by
  refine ⟨?_, min_le_right _ _, fun h => min_eq_left h,
    fun h => min_eq_right h.le⟩
  simp only [fetch_records, hw, hq, Option.isNone_some, Bool.or_self,
    Bool.false_eq_true, if_false]
  cases env.efetchResp start (min max_records 500) <;> rfl

/-- A run whose search succeeds with a positive count. -/
def envLive : Env where
  taxonomy := fun _ => .ok "Homo sapiens"
  esearchResp := fun _ => .ok (3, "W2", "K2")
  efetchResp := fun _ _ => .ok []

/-- Instance state after a successful search. -/
def retrieverWithSession : Retriever :=
  { email := "e", api_key := "k", webenv := some "W2",
    query_key := some "K2", count := some 3 }

theorem C5_batch_clamped_witness :
    (fetch_records envLive retrieverWithSession 0 600).2 =
      [Effect.efetchBatch 0 (min 600 500)] ∧
    min (600 : Int) 500 ≤ 500 ∧
    ((600 : Int) ≤ 500 → min (600 : Int) 500 = 600) ∧
    ((500 : Int) < 600 → min (600 : Int) 500 = 500) :=
  C5_batch_clamped envLive retrieverWithSession 0 600 "W2" "K2" rfl rfl

/-- C6: filtering is idempotent: applying the length filter with the same
bounds to a table that is already the result of filtering returns the same
table (same rows, same order). -/
theorem C6_filter_idempotent (records : List SeqRecord) (lo hi : Int) :
    rowFilter (save_to_csv_loop records lo hi) lo hi =
      save_to_csv_loop records lo hi := by
  rw [save_to_csv_loop_eq_filter_map, rowFilter, List.filter_eq_self]
  intro row hrow
  simp only [filterTabulateSpec, List.mem_map, List.mem_filter,
    decide_eq_true_eq] at hrow
  obtain ⟨rec, ⟨_, hpred⟩, rfl⟩ := hrow
  simpa using hpred

/-- The three records of the end-to-end example, with sequence lengths
200, 1500 and 800, in fetch order. -/
def recA : SeqRecord := ⟨"A1", List.replicate 200 'A', "seq one"⟩

def recB : SeqRecord := ⟨"B2", List.replicate 1500 'C', "seq two"⟩

def recC : SeqRecord := ⟨"C3", List.replicate 800 'G', "seq three"⟩

/-- C7: for the three fetched records of lengths 200, 1500 and 800 and
bounds `[100, 1000]`, the output table is exactly the 200-length record
followed by the 800-length record (the 1500-length record is excluded), and
the written CSV is the header row plus exactly two data rows. -/
theorem C7_end_to_end_example :
    (save_to_csv [recA, recB, recC] "taxid_9606_filtered.csv" 100 1000).1 =
      [⟨"A1", 200, "seq one"⟩, ⟨"C3", 800, "seq three"⟩] ∧
    (save_to_csv [recA, recB, recC] "taxid_9606_filtered.csv" 100 1000).2 =
      [Effect.writeCsv "taxid_9606_filtered.csv"
        [csvHeader, "A1,200,seq one", "C3,800,seq three"]] := by
  have hdf : save_to_csv_loop [recA, recB, recC] 100 1000 =
      [⟨"A1", 200, "seq one"⟩, ⟨"C3", 800, "seq three"⟩] := by
    norm_num [save_to_csv_loop, recA, recB, recC]
  refine ⟨by rw [save_to_csv, hdf], ?_⟩
  rw [save_to_csv, hdf]
  rfl

/-- C8: `plot_lengths` plots a sorted copy of its input table — the plotted
series is a permutation of the table, sorted by length descending — and the
caller's table is unchanged by the call. -/
theorem C8_plot_sorts_copy (df : List Row) (file : String) :
    (plot_lengths df file).1 = df ∧
    (plot_lengths df file).2 =
      [Effect.savePlot file ((sort_values_length_desc df).map (·.accession))
        ((sort_values_length_desc df).map (·.length))] ∧
    (sort_values_length_desc df).Perm df ∧
    (sort_values_length_desc df).Pairwise (fun a b => b.length ≤ a.length) := by
  refine ⟨rfl, rfl, List.mergeSort_perm df _, ?_⟩
  have h := @List.sorted_mergeSort Row
    (fun a b : Row => decide (b.length ≤ a.length))
    (fun a b c hab hbc => by
      simp only [decide_eq_true_eq] at *
      omega)
    (fun a b => by
      simp only [Bool.or_eq_true, decide_eq_true_eq]
      omega)
    df
  rw [sort_values_length_desc]
  exact h.imp (fun {a b} hab => by simpa using hab)

/-- C9: `search_taxid` never returns a zero or negative count: it returns
either `None` or a strictly positive count, and in the latter case the
session fields (`webenv`, `query_key`, `count`) have all been stored on the
instance, so the fetch precondition holds right after a successful search. -/
theorem C9_search_invariant (env : Env) (r : Retriever) (taxid : String) :
    (search_taxid env r taxid).2.1 = none ∨
    ∃ n : Nat, (search_taxid env r taxid).2.1 = some n ∧ 0 < n ∧
      (search_taxid env r taxid).1.webenv.isSome = true ∧
      (search_taxid env r taxid).1.query_key.isSome = true ∧
      (search_taxid env r taxid).1.count = some n := by
  cases htax : env.taxonomy taxid with
  | error e => exact Or.inl (by simp [search_taxid, htax])
  | ok name =>
    cases hsea : env.esearchResp ("txid" ++ taxid ++ "[Organism]") with
    | error e => exact Or.inl (by simp [search_taxid, htax, hsea])
    | ok res =>
      obtain ⟨count, webenv, query_key⟩ := res
      by_cases hc : count = 0
      · subst hc
        exact Or.inl (by simp [search_taxid, htax, hsea])
      · exact Or.inr ⟨count, by simp [search_taxid, htax, hsea, hc],
          Nat.pos_of_ne_zero hc, by simp [search_taxid, htax, hsea, hc],
          by simp [search_taxid, htax, hsea, hc],
          by simp [search_taxid, htax, hsea, hc]⟩

/-- C10: when no record passes the length filter (in particular on an empty
input), `save_to_csv` still builds the table with the three named columns and
zero rows, and still writes the CSV file, consisting of the header row
`Accession,Length,Description` only. -/
theorem C10_empty_result_still_written (records : List SeqRecord)
    (filename : String) (lo hi : Int)
    (h : ∀ rec ∈ records,
      ¬ (lo ≤ (rec.seq.length : Int) ∧ (rec.seq.length : Int) ≤ hi)) :
    save_to_csv records filename lo hi =
      ([], [Effect.writeCsv filename [csvHeader]]) ∧
    csvHeader = "Accession,Length,Description" := by
  have hdf : save_to_csv_loop records lo hi = [] := by
    rw [save_to_csv_loop_eq_filter_map, filterTabulateSpec]
    have : records.filter (fun rec =>
        decide (lo ≤ (rec.seq.length : Int) ∧ (rec.seq.length : Int) ≤ hi)) =
        [] := by
      rw [List.filter_eq_nil_iff]
      intro rec hrec
      simpa using h rec hrec
    rw [this]
    rfl
  exact ⟨by rw [save_to_csv, hdf]; rfl, rfl⟩

theorem C10_empty_result_still_written_witness :
    (save_to_csv [] "taxid_1_filtered.csv" 10 20 =
      ([], [Effect.writeCsv "taxid_1_filtered.csv" [csvHeader]]) ∧
    csvHeader = "Accession,Length,Description") :=
  C10_empty_result_still_written [] "taxid_1_filtered.csv" 10 20
    (by simp)
